import Mathlib

/-!
Verification of the tree-building, error-mapping and orchestration logic of
the bissakov/sharepoint repository, shallowly embedded in Lean 4.

The embedding translates the Python sources:
  * src/tree.py        : Node / FileNode / FolderNode / Tree
  * src/sharepoint.py  : SharePoint._get_folder_contents, download_folder,
                         upload_file, create_list, ListTemplateType.get
  * src/error.py       : handle_client_request_error, handle_value_error,
                         handle_sharepoint_error

Remote state (the SharePoint site reached through the vendor SDK) is modelled
as an explicit value of type RFolder that the builder walks; filesystem and
network side effects of the orchestration operations are modelled as explicit
event traces; Python exceptions are modelled by the PyExc sum type and
fallible code returns Except PyExc.
-/

namespace SP

/-- A remote file as the vendor SDK exposes it: the two properties the code
reads are Name and ServerRelativeUrl. -/
structure RFile where
  name : String
  url : String
deriving DecidableEq, Repr

/-- A remote folder with its Name, ServerRelativeUrl, direct files and direct
subfolders; this is the remote state that folder expansion with
Files and Folders reveals to the builder. -/
inductive RFolder : Type where
  | mk (name : String) (url : String) (files : List RFile) (folders : List RFolder) : RFolder

def RFolder.name : RFolder → String
  | .mk n _ _ _ => n

def RFolder.url : RFolder → String
  | .mk _ u _ _ => u

def RFolder.files : RFolder → List RFile
  | .mk _ _ fs _ => fs

def RFolder.folders : RFolder → List RFolder
  | .mk _ _ _ sub => sub

/-- In-memory tree nodes, after src/tree.py: a FileNode carries name and path;
a FolderNode carries name, path and an ordered list of children. The type tag
of src/tree.py (the field named type, holding "file" or "folder") is the
constructor. Parent back-references are represented by the tree structure
itself: a node is a child of exactly the folder whose children list holds it. -/
inductive ChildNode : Type where
  | file (name path : String) : ChildNode
  | folder (name path : String) (children : List ChildNode) : ChildNode

/-- Predicate after Node.is_file of src/tree.py. -/
def ChildNode.is_file : ChildNode → Bool
  | .file _ _ => true
  | .folder _ _ _ => false

/-- Predicate after Node.is_folder of src/tree.py. -/
def ChildNode.is_folder : ChildNode → Bool
  | .file _ _ => false
  | .folder _ _ _ => true

def ChildNode.path : ChildNode → String
  | .file _ p => p
  | .folder _ p _ => p

def ChildNode.children : ChildNode → List ChildNode
  | .file _ _ => []
  | .folder _ _ cs => cs

/-- Operation after FolderNode.add_child of src/tree.py: append the child to
the children list (and, in the source, set the parent back-reference of the
child, which the purely functional tree represents implicitly). On a file
node it is a no-op, matching that the source only defines it on FolderNode. -/
def ChildNode.add_child : ChildNode → ChildNode → ChildNode
  | .folder n p cs, c => .folder n p (cs ++ [c])
  | .file n p, _ => .file n p

mutual
/-- Total number of nodes of a subtree (the node itself plus all descendants). -/
def nodeCount : ChildNode → Nat
  | .file _ _ => 1
  | .folder _ _ cs => 1 + nodeCountList cs
/-- Total number of nodes of a forest. -/
def nodeCountList : List ChildNode → Nat
  | [] => 0
  | c :: cs => nodeCount c + nodeCountList cs
end

mutual
/-- Number of folder nodes of a subtree. -/
def folderNodeCount : ChildNode → Nat
  | .file _ _ => 0
  | .folder _ _ cs => 1 + folderNodeCountList cs
/-- Number of folder nodes of a forest. -/
def folderNodeCountList : List ChildNode → Nat
  | [] => 0
  | c :: cs => folderNodeCount c + folderNodeCountList cs
end

/-- The tree of src/tree.py: a root node, plus the depth counter that
Tree.set_current_node increments, plus the current folder node that
Tree.set_current_node stores (absent until first set, hence an Option). -/
structure Tree where
  root : ChildNode
  depth : Nat
  current_folder_node : Option ChildNode

/-- Constructor after Tree.init of src/tree.py: depth starts at 0 and no
current folder node is set. -/
def Tree.new (root : ChildNode) : Tree :=
  { root := root, depth := 0, current_folder_node := none }

/-- Operation after Tree.set_current_node of src/tree.py: stores the folder
node and increments depth. -/
def Tree.set_current_node (t : Tree) (folder_node : ChildNode) : Tree :=
  { t with current_folder_node := some folder_node, depth := t.depth + 1 }

mutual
/-- Tree builder after SharePoint._get_folder_contents of src/sharepoint.py,
building the node for one resolved remote folder. Every direct file becomes a
FileNode child in the order returned by the remote; then the loop over
subfolders breaks immediately when recursive is false, and otherwise recurses,
appending the subfolder node built for each subfolder via add_child. -/
def buildFolderNode (f : RFolder) (recursive : Bool) : ChildNode :=
  match f with
  | .mk name url files folders =>
      ChildNode.folder name url
        ((files.map fun fl => ChildNode.file fl.name fl.url) ++
          (if recursive then buildSubfolders folders recursive else []))
/-- The subfolder loop of SharePoint._get_folder_contents in recursive mode:
each subfolder is expanded and descended into, in order. -/
def buildSubfolders (fs : List RFolder) (recursive : Bool) : List ChildNode :=
  match fs with
  | [] => []
  | sf :: rest => buildFolderNode sf recursive :: buildSubfolders rest recursive
end

/-- Top-level entry of SharePoint._get_folder_contents (external call with
tree = none and parent_node = none): the resolved starting folder becomes the
root of a fresh Tree, whose depth therefore is the 0 set by Tree.init, since
the builder never calls Tree.set_current_node anywhere. -/
def get_folder_contents (f : RFolder) (recursive : Bool) : Tree :=
  Tree.new (buildFolderNode f recursive)

mutual
/-- Number of files and folders a recursive walk discovers transitively below
a remote folder: its direct files, plus, for every subfolder, the subfolder
itself and everything below it. -/
def discoveredEntries : RFolder → Nat
  | .mk _ _ files folders => files.length + discoveredList folders
/-- Entries discovered in a list of subfolders: each subfolder counts itself
plus its own discovered entries. -/
def discoveredList : List RFolder → Nat
  | [] => 0
  | f :: fs => 1 + discoveredEntries f + discoveredList fs
end

theorem nodeCountList_append (a b : List ChildNode) :
    nodeCountList (a ++ b) = nodeCountList a + nodeCountList b := by
  induction a with
  | nil => simp [nodeCountList]
  | cons c cs ih => simp [nodeCountList, ih]; omega

theorem folderNodeCountList_append (a b : List ChildNode) :
    folderNodeCountList (a ++ b) = folderNodeCountList a + folderNodeCountList b := by
  induction a with
  | nil => simp [folderNodeCountList]
  | cons c cs ih => simp [folderNodeCountList, ih]; omega

theorem nodeCountList_map_files (fs : List RFile) :
    nodeCountList (fs.map fun fl => ChildNode.file fl.name fl.url) = fs.length := by
  induction fs with
  | nil => simp [nodeCountList]
  | cons f fs ih => simp [nodeCountList, nodeCount, ih]; omega

theorem folderNodeCountList_map_files (fs : List RFile) :
    folderNodeCountList (fs.map fun fl => ChildNode.file fl.name fl.url) = 0 := by
  induction fs with
  | nil => simp [folderNodeCountList]
  | cons f fs ih => simp [folderNodeCountList, folderNodeCount, ih]

mutual
theorem nodeCount_build_rec (f : RFolder) :
    nodeCount (buildFolderNode f true) = 1 + discoveredEntries f := by
  match f with
  | .mk n u files folders =>
      simp [buildFolderNode, nodeCount, discoveredEntries, nodeCountList_append,
        nodeCountList_map_files, nodeCountList_build_rec folders]
theorem nodeCountList_build_rec (fs : List RFolder) :
    nodeCountList (buildSubfolders fs true) = discoveredList fs := by
  match fs with
  | [] => simp [buildSubfolders, nodeCountList, discoveredList]
  | sf :: rest =>
      simp only [buildSubfolders, nodeCountList, discoveredList,
        nodeCount_build_rec sf, nodeCountList_build_rec rest]
end

/-- C1. For every remote folder, the non-recursive build yields a tree of
exactly 1 + N nodes where N is the number of direct files, whose root has
exactly the direct files as children, as FileNodes, in the order the remote
returned them, and which contains no folder node other than the root; the
recursive build yields a tree whose node count is 1 plus the number of files
and folders discovered transitively at every level. -/
theorem folder_contents_node_counts (f : RFolder) :
    nodeCount (get_folder_contents f false).root = 1 + f.files.length ∧
    (get_folder_contents f false).root.children
      = (f.files.map fun fl => ChildNode.file fl.name fl.url) ∧
    folderNodeCount (get_folder_contents f false).root = 1 ∧
    nodeCount (get_folder_contents f true).root = 1 + discoveredEntries f := by
  refine ⟨?_, ?_, ?_, ?_⟩
  · match f with
    | .mk n u files folders =>
        simp [get_folder_contents, Tree.new, buildFolderNode, nodeCount,
          nodeCountList_map_files, RFolder.files]
  · match f with
    | .mk n u files folders =>
        simp [get_folder_contents, Tree.new, buildFolderNode, ChildNode.children,
          RFolder.files]
  · match f with
    | .mk n u files folders =>
        simp [get_folder_contents, Tree.new, buildFolderNode, folderNodeCount,
          folderNodeCountList_map_files]
  · exact nodeCount_build_rec f

mutual
/-- Reference depth-first pre-order of a subtree: the node itself first, then
the entire subtree of each child in insertion order. -/
def preorderNode : ChildNode → List ChildNode
  | .file n p => [ChildNode.file n p]
  | .folder n p cs => ChildNode.folder n p cs :: preorderList cs
/-- Reference pre-order of a forest, left to right. -/
def preorderList : List ChildNode → List ChildNode
  | [] => []
  | c :: cs => preorderNode c ++ preorderList cs
end

/-- Stack-based traversal after Tree.iter of src/tree.py: the stack starts as
the singleton root; each step pops the top node, yields it, and, when it is a
folder, pushes its children reversed, so that the first child is on top. The
Lean list models the Python stack with its head as the stack top, so pushing
reversed children amounts to prepending the children in order. -/
def iterFromStack (stack : List ChildNode) : List ChildNode :=
  match stack with
  | [] => []
  | node :: rest =>
      match node with
      | .file n p => ChildNode.file n p :: iterFromStack rest
      | .folder n p cs => ChildNode.folder n p cs :: iterFromStack (cs ++ rest)
termination_by nodeCountList stack
decreasing_by
  · simp only [nodeCountList, nodeCount]
    omega
  · simp only [nodeCountList, nodeCount, nodeCountList_append]
    omega

/-- One full run of the generator Tree.iter of src/tree.py, as the list of
yielded nodes; every run starts afresh from the root. -/
def treeIter (t : Tree) : List ChildNode :=
  iterFromStack [t.root]

theorem preorderList_append (a b : List ChildNode) :
    preorderList (a ++ b) = preorderList a ++ preorderList b := by
  induction a with
  | nil => simp [preorderList]
  | cons c cs ih => simp [preorderList, ih]

theorem iterFromStack_eq_preorderList (stack : List ChildNode) :
    iterFromStack stack = preorderList stack := by
  match stack with
  | [] => simp [iterFromStack, preorderList]
  | (ChildNode.file n p) :: rest =>
      simp [iterFromStack, preorderList, preorderNode,
        iterFromStack_eq_preorderList rest]
  | (ChildNode.folder n p cs) :: rest =>
      simp [iterFromStack, preorderList, preorderNode,
        iterFromStack_eq_preorderList (cs ++ rest), preorderList_append]
termination_by nodeCountList stack
decreasing_by
  · simp only [nodeCountList, nodeCount]
    omega
  · simp only [nodeCountList, nodeCount, nodeCountList_append]
    omega

mutual
theorem preorderNode_length (c : ChildNode) :
    (preorderNode c).length = nodeCount c := by
  match c with
  | .file n p => simp [preorderNode, nodeCount]
  | .folder n p cs =>
      simp only [preorderNode, nodeCount, List.length_cons,
        preorderList_length cs]
      omega
theorem preorderList_length (cs : List ChildNode) :
    (preorderList cs).length = nodeCountList cs := by
  match cs with
  | [] => simp [preorderList, nodeCountList]
  | c :: rest =>
      simp only [preorderList, nodeCountList, List.length_append,
        preorderNode_length c, preorderList_length rest]
end

/-- C2. Iterating a tree yields exactly the depth-first pre-order of its
nodes: the root first, each folder followed by its children in insertion
order, the whole subtree of a child before the next sibling; the sequence is
finite with length equal to the total node count; and a second iteration,
which again starts from the singleton-root stack, yields the same sequence.
In the purely functional tree, every value of the node type is one built only
by add_child attachments, each node sitting under exactly one parent. -/
theorem tree_iteration_preorder (t : Tree) :
    treeIter t = preorderNode t.root ∧
    (treeIter t).length = nodeCount t.root ∧
    treeIter t = treeIter t := by
  refine ⟨?_, ?_, rfl⟩
  · simp [treeIter, iterFromStack_eq_preorderList, preorderList]
  · simp [treeIter, iterFromStack_eq_preorderList, preorderList,
      preorderNode_length]

/-- Serialized node DTO after FileNodeDict and FolderNodeDict of src/tree.py:
a nested mapping with keys name, path and the kind tag (the source field named
type), plus, for folders only, the list of serialized children. -/
inductive NodeDict : Type where
  | fileDict (name path kind : String) : NodeDict
  | folderDict (name path kind : String) (children : List NodeDict) : NodeDict

mutual
/-- Serialization after FileNode.to_dict and FolderNode.to_dict of
src/tree.py: a file node serializes to its name, path and kind tag; a folder
node serializes to its name, path, kind tag and its children serialized
recursively, in order. -/
def nodeToDict : ChildNode → NodeDict
  | .file n p => NodeDict.fileDict n p "file"
  | .folder n p cs => NodeDict.folderDict n p "folder" (nodeToDictList cs)
/-- The children list comprehension inside FolderNode.to_dict. -/
def nodeToDictList : List ChildNode → List NodeDict
  | [] => []
  | c :: cs => nodeToDict c :: nodeToDictList cs
end

/-- Serialization after Tree.to_dict of src/tree.py: serialize the root. -/
def Tree.to_dict (t : Tree) : NodeDict :=
  nodeToDict t.root

mutual
/-- Inverse reading of the DTO, used to state that serialization loses
nothing of the tree it reads. -/
def dictToNode : NodeDict → ChildNode
  | .fileDict n p _ => ChildNode.file n p
  | .folderDict n p _ cs => ChildNode.folder n p (dictToNodeList cs)
def dictToNodeList : List NodeDict → List ChildNode
  | [] => []
  | d :: ds => dictToNode d :: dictToNodeList ds
end

mutual
theorem dictToNode_nodeToDict (c : ChildNode) :
    dictToNode (nodeToDict c) = c := by
  match c with
  | .file n p => simp [nodeToDict, dictToNode]
  | .folder n p cs =>
      simp [nodeToDict, dictToNode, dictToNodeList_nodeToDictList cs]
theorem dictToNodeList_nodeToDictList (cs : List ChildNode) :
    dictToNodeList (nodeToDictList cs) = cs := by
  match cs with
  | [] => simp [nodeToDictList, dictToNodeList]
  | c :: rest =>
      simp [nodeToDictList, dictToNodeList, dictToNode_nodeToDict c,
        dictToNodeList_nodeToDictList rest]
end

/-- C5. Serialization is a pure function of the current tree state: it reads
only the root (trees with equal roots serialize equally, whatever the rest of
the state holds), applying it twice to the same unmutated tree yields
structurally identical results, and the produced nested mapping represents
the tree faithfully, folders as name, path, kind and recursively serialized
children and files as name, path and kind, so that the tree can be read back
from it unchanged. -/
theorem to_dict_pure (t : Tree) :
    Tree.to_dict t = nodeToDict t.root ∧
    Tree.to_dict t = Tree.to_dict t ∧
    dictToNode (Tree.to_dict t) = t.root := by
  exact ⟨rfl, rfl, dictToNode_nodeToDict t.root⟩

/-- A concrete remote folder: one direct file, one subfolder that itself
holds one subfolder, so a recursive build attaches two folder nodes. -/
def sampleLeaf : RFolder := RFolder.mk "C" "/a/b/c" [] []

def sampleMid : RFolder := RFolder.mk "B" "/a/b" [] [sampleLeaf]

def sampleRoot : RFolder :=
  RFolder.mk "A" "/a" [RFile.mk "f.txt" "/a/f.txt"] [sampleMid]

/-- C3. Evaluation of the code at a failing input: the recursive build over
sampleRoot attaches two subfolder FolderNodes (three folder nodes counting
the root), yet the depth field of the returned tree is 0, not 2, because
SharePoint._get_folder_contents never calls Tree.set_current_node, the one
operation that increments depth. The test suite of the repository asserts
tree.depth > 1 after a recursive build, which this build contradicts. -/
theorem tree_depth_never_incremented :
    (get_folder_contents sampleRoot true).depth = 0 ∧
    folderNodeCount (get_folder_contents sampleRoot true).root = 3 := by
  constructor
  · rfl
  · decide

/-- Check that the first character list leads the second; the model of the
Python prefix test, written over character lists so that it evaluates inside
the kernel. -/
def leadsWith : List Char → List Char → Bool
  | [], _ => true
  | _ :: _, [] => false
  | p :: ps, c :: cs => p = c && leadsWith ps cs

/-- Split a character list at every occurrence of the two-character separator
", " scanning left to right; the model of the Python split on ", " that
handle_client_request_error of src/error.py performs on a code string. -/
def splitCS (acc : List Char) : List Char → List (List Char)
  | ',' :: ' ' :: rest => acc.reverse :: splitCS [] rest
  | c :: rest => splitCS (c :: acc) rest
  | [] => [acc.reverse]

/-- String-level wrapper of splitCS: the model of str.split applied with the
separator ", ". -/
def pySplitCommaSpace (s : String) : List String :=
  (splitCS [] s.data).map String.mk

/-- Decidable equality of fallible outcomes, for evaluating the embedding on
concrete inputs. -/
instance {ε α : Type} [DecidableEq ε] [DecidableEq α] : DecidableEq (Except ε α) :=
  fun x y =>
    match x, y with
    | Except.ok a, Except.ok b =>
        if h : a = b then isTrue (by rw [h]) else isFalse (by simp [h])
    | Except.error e, Except.error f =>
        if h : e = f then isTrue (by rw [h]) else isFalse (by simp [h])
    | Except.ok _, Except.error _ => isFalse (by simp)
    | Except.error _, Except.ok _ => isFalse (by simp)

/-- Error payload after ErrorDetails of src/error.py. -/
structure ErrorDetails where
  code : String
  exception_name : String
  message : String
  exception_details : String
deriving DecidableEq

/-- A vendor ClientRequestException as src/error.py consumes it: its args are
the triple (code, message, details) and its code attribute is the raw string
the response carried, such as "-2130575338, Microsoft.SharePoint.SPException";
the repository itself splits that string. -/
structure ClientRequestException where
  code : String
  message : String
  details : String
deriving DecidableEq

/-- Body of a Python ValueError as handle_value_error of src/error.py probes
it, partitioned by the observable outcome of the probe exc.args and
json.loads(exc.args of index 0): the first argument parses as a JSON object
(modelled as its string fields, which is all the auth failure payload holds;
a non-string field value compares unequal to the cataloged markers exactly
as a non-matching string does); or it parses as JSON that is not an object
(null, a list, a number, a string), so that subscripting the parsed value
raises; or it is a string on which json.loads raises JSONDecodeError; or the
ValueError has no arguments at all, so that the index-0 access raises; or
the first argument is of a type json.loads cannot decode (neither str nor
bytes-like; bytes-like arguments that decode behave as their decoded string
and fall under the first three shapes). -/
inductive VBody : Type where
  | jsonObject (fields : List (String × String)) : VBody
  | jsonNonObject : VBody
  | plain (msg : String) : VBody
  | noArgs : VBody
  | nonDecodableArg : VBody
deriving DecidableEq

/-- Python exceptions that can cross the wrapper of src/error.py: the two
caught vendor shapes, the typed domain errors the repository defines, the
exceptions Python itself raises inside the handlers (unpacking ValueError,
KeyError, TypeError), and a catch-all for any other exception kind. -/
inductive PyExc : Type where
  | clientRequest (exc : ClientRequestException) : PyExc
  | valueError (body : VBody) : PyExc
  | spFolderNotFound (d : ErrorDetails) : PyExc
  | spFileNotFound (d : ErrorDetails) : PyExc
  | spFileAlreadyExists (d : ErrorDetails) : PyExc
  | spListNotFound (d : ErrorDetails) : PyExc
  | invalidClientID (fields : List (String × String)) : PyExc
  | invalidClientSecret (fields : List (String × String)) : PyExc
  | invalidSiteUrl : PyExc
  | formatNotSupported (msg : String) : PyExc
  | listTemplateNotFound (template_name : String) : PyExc
  | keyError (key : String) : PyExc
  | typeError (msg : String) : PyExc
  | indexError (msg : String) : PyExc
  | other (tag : String) : PyExc
deriving DecidableEq

/-- Mapper after handle_client_request_error of src/error.py. The source
splits str(exc.code) on the separator ", " and unpacks the result into
exactly a code and an exception name; when the split does not yield exactly
two parts, that unpacking itself raises a ValueError inside the handler,
which then escapes in place of the original exception. With two parts, the
cataloged (exception name, code) shapes map to the typed errors and any
other pair returns the exception unchanged. -/
def handle_client_request_error (exc : ClientRequestException) : PyExc :=
  match pySplitCommaSpace exc.code with
  | [code, exc_name] =>
      let d : ErrorDetails :=
        { code := code, exception_name := exc_name,
          message := exc.message, exception_details := exc.details }
      if exc_name = "System.IO.FileNotFoundException" then
        PyExc.spFolderNotFound d
      else if exc_name = "Microsoft.SharePoint.SPException" ∧ code = "-2130575338" then
        PyExc.spFileNotFound d
      else if exc_name = "Microsoft.SharePoint.SPException" ∧ code = "-2130575257" then
        PyExc.spFileAlreadyExists d
      else if exc_name = "System.ArgumentException" ∧ code = "-1" then
        PyExc.spListNotFound d
      else
        PyExc.clientRequest exc
  | parts =>
      PyExc.valueError (VBody.plain
        (if parts.length < 2 then
          "not enough values to unpack (expected 2, got 1)"
        else
          "too many values to unpack (expected 2)"))

/-- Mapper after handle_value_error of src/error.py. A JSON body whose error
field is unauthorized_client or invalid_client maps to the invalid-client
errors; a JSON object without an error field makes the subscript raise a
KeyError inside the handler; a body parsing as JSON that is not an object
makes the subscript of the parsed value raise a TypeError (the message below
stands in for the interpreter wording, which varies with the parsed type:
the model tracks only that a TypeError escapes); a plain body equal to the
fixed token-failure message maps to the invalid-site-url error and any other
plain body is returned unchanged; a ValueError with no arguments makes the
index-0 access raise an IndexError before json.loads runs; an argument
json.loads cannot decode makes json.loads itself raise a TypeError. Only
JSONDecodeError is caught inside the handler, so each of these raised
exceptions escapes in place of the original. -/
def handle_value_error (body : VBody) : PyExc :=
  match body with
  | VBody.jsonObject fields =>
      match fields.lookup "error" with
      | some v =>
          if v = "unauthorized_client" then PyExc.invalidClientID fields
          else if v = "invalid_client" then PyExc.invalidClientSecret fields
          else PyExc.valueError body
      | none => PyExc.keyError "error"
  | VBody.jsonNonObject =>
      PyExc.typeError
        "the parsed JSON value is not an object and cannot be subscripted by the key error"
  | VBody.plain msg =>
      if msg = "Acquire app-only access token failed." then PyExc.invalidSiteUrl
      else PyExc.valueError body
  | VBody.noArgs => PyExc.indexError "tuple index out of range"
  | VBody.nonDecodableArg =>
      PyExc.typeError "the JSON object must be str, bytes or bytearray"

/-- Decorator after handle_sharepoint_error of src/error.py, applied to the
outcome of the wrapped call: a normal return passes through; a raised
ClientRequestException goes through handle_client_request_error, a raised
ValueError through handle_value_error, and any other exception is re-raised
unchanged. The wrapper never suppresses: an error outcome stays an error. -/
def handle_sharepoint_error {α : Type} (result : Except PyExc α) : Except PyExc α :=
  match result with
  | Except.ok a => Except.ok a
  | Except.error (PyExc.clientRequest exc) =>
      Except.error (handle_client_request_error exc)
  | Except.error (PyExc.valueError body) =>
      Except.error (handle_value_error body)
  | Except.error e => Except.error e

/-- C4, counterexample. The claim states that every exception matching none
of the cataloged shapes propagates unchanged. A ClientRequestException whose
code attribute is the string "None" (the vendor leaves the code unset when
the error response carries no parseable payload, and the source feeds it
through str) matches none of the cataloged shapes, yet the wrapper does not
re-raise it: splitting "None" on the separator ", " yields one part, the
unpacking of that split inside handle_client_request_error raises a
ValueError, and that ValueError propagates in place of the original. -/
theorem error_mapper_not_passthrough :
    handle_sharepoint_error
        (Except.error (PyExc.clientRequest ⟨"None", "msg", "details"⟩) : Except PyExc Unit)
      ≠ Except.error (PyExc.clientRequest ⟨"None", "msg", "details"⟩) ∧
    handle_sharepoint_error
        (Except.error (PyExc.clientRequest ⟨"None", "msg", "details"⟩) : Except PyExc Unit)
      = Except.error (PyExc.valueError
          (VBody.plain "not enough values to unpack (expected 2, got 1)")) := by
  constructor
  · decide
  · decide

/-- C4, as amended. The error mapper translates exactly the cataloged vendor
shapes: a ClientRequestException whose code splits on the separator ", " into
a code and the exception name System.IO.FileNotFoundException becomes the
folder-not-found error; with name Microsoft.SharePoint.SPException and code
-2130575338 the file-not-found error; with that name and code -2130575257 the
file-already-exists error; with name System.ArgumentException and code -1 the
list-not-found error; a ValueError whose JSON body has error field
unauthorized_client becomes the invalid-client-id error, invalid_client the
invalid-client-secret error, and the plain message equal to the fixed
token-failure text the invalid-site-url error. Every exception matching none
of these propagates unchanged, except the shapes on which the mapper itself
raises in place of the original: a ClientRequestException whose code does not
split into exactly two parts raises an unpacking ValueError; a ValueError
whose JSON-object body lacks an error field raises a KeyError; a ValueError
whose body parses as JSON that is not an object raises a TypeError at the
subscript of the parsed value; a ValueError with no arguments raises an
IndexError at the index-0 access; and a ValueError whose argument json.loads
cannot decode raises a TypeError inside json.loads. No exception is ever
suppressed: a wrapped call either returns the result of the callee or
raises. -/
theorem error_mapper_catalog {α : Type} :
    (∀ (exc : ClientRequestException) (c : String),
        pySplitCommaSpace exc.code = [c, "System.IO.FileNotFoundException"] →
        handle_sharepoint_error (Except.error (PyExc.clientRequest exc) : Except PyExc α) =
          Except.error (PyExc.spFolderNotFound
            ⟨c, "System.IO.FileNotFoundException", exc.message, exc.details⟩)) ∧
    (∀ (exc : ClientRequestException),
        pySplitCommaSpace exc.code = ["-2130575338", "Microsoft.SharePoint.SPException"] →
        handle_sharepoint_error (Except.error (PyExc.clientRequest exc) : Except PyExc α) =
          Except.error (PyExc.spFileNotFound
            ⟨"-2130575338", "Microsoft.SharePoint.SPException",
              exc.message, exc.details⟩)) ∧
    (∀ (exc : ClientRequestException),
        pySplitCommaSpace exc.code = ["-2130575257", "Microsoft.SharePoint.SPException"] →
        handle_sharepoint_error (Except.error (PyExc.clientRequest exc) : Except PyExc α) =
          Except.error (PyExc.spFileAlreadyExists
            ⟨"-2130575257", "Microsoft.SharePoint.SPException",
              exc.message, exc.details⟩)) ∧
    (∀ (exc : ClientRequestException),
        pySplitCommaSpace exc.code = ["-1", "System.ArgumentException"] →
        handle_sharepoint_error (Except.error (PyExc.clientRequest exc) : Except PyExc α) =
          Except.error (PyExc.spListNotFound
            ⟨"-1", "System.ArgumentException", exc.message, exc.details⟩)) ∧
    (∀ (fields : List (String × String)),
        fields.lookup "error" = some "unauthorized_client" →
        handle_sharepoint_error
            (Except.error (PyExc.valueError (VBody.jsonObject fields)) : Except PyExc α) =
          Except.error (PyExc.invalidClientID fields)) ∧
    (∀ (fields : List (String × String)),
        fields.lookup "error" = some "invalid_client" →
        handle_sharepoint_error
            (Except.error (PyExc.valueError (VBody.jsonObject fields)) : Except PyExc α) =
          Except.error (PyExc.invalidClientSecret fields)) ∧
    (handle_sharepoint_error
        (Except.error (PyExc.valueError
          (VBody.plain "Acquire app-only access token failed.")) : Except PyExc α) =
      Except.error PyExc.invalidSiteUrl) ∧
    (∀ (exc : ClientRequestException) (c n : String),
        pySplitCommaSpace exc.code = [c, n] →
        n ≠ "System.IO.FileNotFoundException" →
        ¬(n = "Microsoft.SharePoint.SPException" ∧ c = "-2130575338") →
        ¬(n = "Microsoft.SharePoint.SPException" ∧ c = "-2130575257") →
        ¬(n = "System.ArgumentException" ∧ c = "-1") →
        handle_sharepoint_error (Except.error (PyExc.clientRequest exc) : Except PyExc α) =
          Except.error (PyExc.clientRequest exc)) ∧
    (∀ (fields : List (String × String)) (v : String),
        fields.lookup "error" = some v →
        v ≠ "unauthorized_client" → v ≠ "invalid_client" →
        handle_sharepoint_error
            (Except.error (PyExc.valueError (VBody.jsonObject fields)) : Except PyExc α) =
          Except.error (PyExc.valueError (VBody.jsonObject fields))) ∧
    (∀ (msg : String),
        msg ≠ "Acquire app-only access token failed." →
        handle_sharepoint_error
            (Except.error (PyExc.valueError (VBody.plain msg)) : Except PyExc α) =
          Except.error (PyExc.valueError (VBody.plain msg))) ∧
    (∀ (exc : ClientRequestException),
        (pySplitCommaSpace exc.code).length ≠ 2 →
        ∃ msg, handle_sharepoint_error
            (Except.error (PyExc.clientRequest exc) : Except PyExc α) =
          Except.error (PyExc.valueError (VBody.plain msg))) ∧
    (∀ (fields : List (String × String)),
        fields.lookup "error" = none →
        handle_sharepoint_error
            (Except.error (PyExc.valueError (VBody.jsonObject fields)) : Except PyExc α) =
          Except.error (PyExc.keyError "error")) ∧
    (∃ msg, handle_sharepoint_error
        (Except.error (PyExc.valueError VBody.jsonNonObject) : Except PyExc α) =
      Except.error (PyExc.typeError msg)) ∧
    (handle_sharepoint_error
        (Except.error (PyExc.valueError VBody.noArgs) : Except PyExc α) =
      Except.error (PyExc.indexError "tuple index out of range")) ∧
    (∃ msg, handle_sharepoint_error
        (Except.error (PyExc.valueError VBody.nonDecodableArg) : Except PyExc α) =
      Except.error (PyExc.typeError msg)) ∧
    (∀ (e : PyExc),
        (∀ exc, e ≠ PyExc.clientRequest exc) →
        (∀ body, e ≠ PyExc.valueError body) →
        handle_sharepoint_error (Except.error e : Except PyExc α) = Except.error e) ∧
    (∀ (a : α), handle_sharepoint_error (Except.ok a : Except PyExc α) = Except.ok a) ∧
    (∀ (r : Except PyExc α) (a : α),
        handle_sharepoint_error r = Except.ok a → r = Except.ok a) := by
  refine ⟨?_, ?_, ?_, ?_, ?_, ?_, ?_, ?_, ?_, ?_, ?_, ?_, ?_, ?_, ?_, ?_, ?_, ?_⟩
  · intro exc c h
    simp [handle_sharepoint_error, handle_client_request_error, h]
  · intro exc h
    simp [handle_sharepoint_error, handle_client_request_error, h]
  · intro exc h
    simp [handle_sharepoint_error, handle_client_request_error, h]
  · intro exc h
    simp [handle_sharepoint_error, handle_client_request_error, h]
  · intro fields h
    simp [handle_sharepoint_error, handle_value_error, h]
  · intro fields h
    simp [handle_sharepoint_error, handle_value_error, h]
  · simp [handle_sharepoint_error, handle_value_error]
  · intro exc c n h h1 h2 h3 h4
    simp [handle_sharepoint_error, handle_client_request_error, h, h1, h2, h3, h4]
  · intro fields v h h1 h2
    simp [handle_sharepoint_error, handle_value_error, h, h1, h2]
  · intro msg h
    simp [handle_sharepoint_error, handle_value_error, h]
  · intro exc h
    simp only [handle_sharepoint_error, handle_client_request_error]
    match hs : pySplitCommaSpace exc.code with
    | [] => simp
    | [a] => simp
    | [a, b] => rw [hs] at h; simp at h
    | a :: b :: c :: rest => simp
  · intro fields h
    simp [handle_sharepoint_error, handle_value_error, h]
  · exact ⟨_, rfl⟩
  · rfl
  · exact ⟨_, rfl⟩
  · intro e h1 h2
    match e with
    | PyExc.clientRequest exc => exact absurd rfl (h1 exc)
    | PyExc.valueError body => exact absurd rfl (h2 body)
    | PyExc.spFolderNotFound d => rfl
    | PyExc.spFileNotFound d => rfl
    | PyExc.spFileAlreadyExists d => rfl
    | PyExc.spListNotFound d => rfl
    | PyExc.invalidClientID f => rfl
    | PyExc.invalidClientSecret f => rfl
    | PyExc.invalidSiteUrl => rfl
    | PyExc.formatNotSupported m => rfl
    | PyExc.listTemplateNotFound t => rfl
    | PyExc.keyError k => rfl
    | PyExc.typeError m => rfl
    | PyExc.indexError m => rfl
    | PyExc.other t => rfl
  · intro a
    rfl
  · intro r a h
    match r with
    | Except.ok b => simpa [handle_sharepoint_error] using h
    | Except.error e =>
        exfalso
        match e with
        | PyExc.clientRequest exc => simp [handle_sharepoint_error] at h
        | PyExc.valueError body => simp [handle_sharepoint_error] at h
        | PyExc.spFolderNotFound d => simp [handle_sharepoint_error] at h
        | PyExc.spFileNotFound d => simp [handle_sharepoint_error] at h
        | PyExc.spFileAlreadyExists d => simp [handle_sharepoint_error] at h
        | PyExc.spListNotFound d => simp [handle_sharepoint_error] at h
        | PyExc.invalidClientID f => simp [handle_sharepoint_error] at h
        | PyExc.invalidClientSecret f => simp [handle_sharepoint_error] at h
        | PyExc.invalidSiteUrl => simp [handle_sharepoint_error] at h
        | PyExc.formatNotSupported m => simp [handle_sharepoint_error] at h
        | PyExc.listTemplateNotFound t => simp [handle_sharepoint_error] at h
        | PyExc.keyError k => simp [handle_sharepoint_error] at h
        | PyExc.typeError m => simp [handle_sharepoint_error] at h
        | PyExc.indexError m => simp [handle_sharepoint_error] at h
        | PyExc.other t => simp [handle_sharepoint_error] at h

/-- Remove every occurrence of the four characters ".zip" from a character
list, scanning left to right; the model of the Python replace of ".zip" by
the empty string that download_folder of src/sharepoint.py performs. -/
def replaceZipChars : List Char → List Char
  | '.' :: 'z' :: 'i' :: 'p' :: rest => replaceZipChars rest
  | c :: rest => c :: replaceZipChars rest
  | [] => []

/-- String-level wrapper of replaceZipChars. -/
def pyReplaceZip (s : String) : String :=
  String.mk (replaceZipChars s.data)

/-- Model of the Python endswith test, over character lists so that it
evaluates inside the kernel. -/
def pyEndsWith (s suffix : String) : Bool :=
  leadsWith suffix.data.reverse s.data.reverse

/-- Model of the Python startswith test. -/
def pyStartsWith (s pre : String) : Bool :=
  leadsWith pre.data s.data

/-- Model of the Python slice from index 1, dropping the first character. -/
def pyDrop1 (s : String) : String :=
  String.mk (s.data.drop 1)

/-- Split a character list at every slash, the separator of posix paths. -/
def splitSlash (acc : List Char) : List Char → List (List Char)
  | '/' :: rest => acc.reverse :: splitSlash [] rest
  | c :: rest => splitSlash (c :: acc) rest
  | [] => [acc.reverse]

/-- Model of os.path.basename on posix: the component after the last slash. -/
def pyBasename (s : String) : String :=
  String.mk ((splitSlash [] s.data).getLastD [])

/-- Model of os.path.dirname on posix: everything before the last slash. -/
def pyDirname (s : String) : String :=
  String.intercalate "/" (((splitSlash [] s.data).dropLast).map String.mk)

/-- Model of joining two posix path components, as pathlib.Path(a, b)
rendered with as_posix does. -/
def pyPathJoin (a b : String) : String :=
  if a = "" then b else a ++ "/" ++ b

/-- Local filesystem and network effects of download_folder, recorded in the
order the source performs them. -/
inductive Event : Type where
  | mkdirs (path : String) : Event
  | fetchTree (url : String) : Event
  | downloadFile (url path : String) : Event
  | makeArchive (base : String) : Event
  | rmtree (path : String) : Event
deriving DecidableEq

/-- The per-node loop of download_folder of src/sharepoint.py over the tree
iteration: a file node has its mirrored local directory created and its bytes
downloaded; a failing download ends the loop with that error and nothing
after it runs; folder nodes are skipped. -/
def downloadLoop (temp_dir : String) (download : String → Except PyExc Unit) :
    List ChildNode → List Event × Except PyExc Unit
  | [] => ([], Except.ok ())
  | node :: rest =>
      if node.is_file then
        let rel_path := if pyStartsWith node.path "/" then pyDrop1 node.path else node.path
        let download_path := pyPathJoin temp_dir rel_path
        let download_dir := pyDirname download_path
        match download node.path with
        | Except.error e =>
            ([Event.mkdirs download_dir, Event.downloadFile node.path download_path],
              Except.error e)
        | Except.ok _ =>
            let next := downloadLoop temp_dir download rest
            (Event.mkdirs download_dir :: Event.downloadFile node.path download_path
                :: next.1,
              next.2)
      else
        downloadLoop temp_dir download rest

/-- Orchestration after download_folder of src/sharepoint.py, as the trace of
its filesystem and network effects together with its outcome. The output name
must use the one supported archive format before anything else happens; then
the base directory and the temporary staging directory are created, the tree
is fetched (the fetch argument standing for the remote round trips of
SharePoint._get_folder_contents, which may fail), every file node of the tree
iteration is downloaded (the download argument standing for download_file,
which may fail per path), and only after all of that succeeds is the staging
directory archived and removed. The source wraps none of this in any
try/finally, so an error ends the trace right where it occurs. -/
def download_folder (folder_url output_zip_file : String) (recursive : Bool)
    (fetch : Except PyExc RFolder) (download : String → Except PyExc Unit) :
    List Event × Except PyExc Unit :=
  if pyEndsWith output_zip_file ".zip" = false then
    ([], Except.error (PyExc.formatNotSupported
      "Only .zip files are supported for downloading folders."))
  else
    let base_name := pyReplaceZip output_zip_file
    let temp_dir := pyPathJoin (pyBasename base_name) "temp"
    let pre := [Event.mkdirs base_name, Event.mkdirs temp_dir,
      Event.fetchTree folder_url]
    match fetch with
    | Except.error e => (pre, Except.error e)
    | Except.ok f =>
        let tree := get_folder_contents f recursive
        let body := downloadLoop temp_dir download (treeIter tree)
        match body.2 with
        | Except.error e => (pre ++ body.1, Except.error e)
        | Except.ok _ =>
            (pre ++ body.1 ++ [Event.makeArchive base_name, Event.rmtree temp_dir],
              Except.ok ())

/-- Effects of upload_file of src/sharepoint.py that reach beyond the local
process: resolving the remote folder, and one of the two upload paths. -/
inductive UploadEvent : Type where
  | resolveFolder (url : String) : UploadEvent
  | singleRequestUpload : UploadEvent
  | chunkedSessionUpload : UploadEvent
deriving DecidableEq

/-- Body of upload_file of src/sharepoint.py, as the trace of its remote
effects together with its outcome. The size of the local file (total_bytes,
which the source reads from the local filesystem) and the chunk size are
checked locally first: a file over the fixed 250 MiB maximum with no chunk
size raises, then a chunk size over that maximum raises; only then is the
remote folder resolved, and the file goes in one request when its size is at
most the chunk size and through the chunked session otherwise. A None chunk
size that survives the first check makes the Python comparison against the
maximum raise a TypeError, which the model records. -/
def upload_file_body (remote_folder_url : String) (total_bytes : Nat)
    (chunk_size_bytes : Option Nat) : List UploadEvent × Except PyExc Unit :=
  let max_chunk_size_bytes := 250 * 1024 * 1024
  if total_bytes > max_chunk_size_bytes ∧ chunk_size_bytes = none then
    ([], Except.error (PyExc.valueError (VBody.plain
      "File size is greater than 250 MB. Please specify a chunk size to upload the file.")))
  else
    match chunk_size_bytes with
    | none =>
        ([], Except.error (PyExc.typeError
          "unsupported comparison between instances of NoneType and int"))
    | some c =>
        if c > max_chunk_size_bytes then
          ([], Except.error (PyExc.valueError (VBody.plain
            "Chunk size should be less than 262,144,000 bytes (250 MB).")))
        else if total_bytes ≤ c then
          ([UploadEvent.resolveFolder remote_folder_url,
            UploadEvent.singleRequestUpload], Except.ok ())
        else
          ([UploadEvent.resolveFolder remote_folder_url,
            UploadEvent.chunkedSessionUpload], Except.ok ())

/-- The public upload_file, which src/sharepoint.py decorates with
handle_sharepoint_error. -/
def upload_file (remote_folder_url : String) (total_bytes : Nat)
    (chunk_size_bytes : Option Nat) : List UploadEvent × Except PyExc Unit :=
  let body := upload_file_body remote_folder_url total_bytes chunk_size_bytes
  (body.1, handle_sharepoint_error body.2)

/-- Modelled from the spec: the vendor ListTemplateType enumeration lives in
the external SDK, not in this repository; the spec describes it as a fixed
enumerated set of template identifiers, integer codes the remote collaborator
uses. A representative fixed table of its name-to-code attributes, with the
standard SharePoint values, including the Tasks entry the source references
directly. -/
def listTemplateTable : List (String × Int) :=
  [("GenericList", 100), ("DocumentLibrary", 101), ("Survey", 102),
   ("Links", 103), ("Announcements", 104), ("Contacts", 105),
   ("Events", 106), ("Tasks", 107), ("DiscussionBoard", 108),
   ("PictureLibrary", 109)]

/-- Lookup after ListTemplateType.get of src/sharepoint.py: the attribute of
the given name when the enumeration has it, None otherwise. -/
def ListTemplateType.get (name : String) : Option Int :=
  listTemplateTable.lookup name

/-- The fixed Tasks identifier the source passes to every creation request. -/
def ListTemplateType.Tasks : Int := 107

/-- The creation request payload after the vendor ListCreationInformation as
create_list of src/sharepoint.py fills it: a title, a description and a base
template identifier. -/
structure ListCreationInformation where
  title : String
  description : Option String
  base_template : Int
deriving DecidableEq

/-- Body of create_list of src/sharepoint.py, as the creation request it
issues or the error it raises: an unrecognized template name raises the typed
template-not-found error before any request; a recognized one issues a
request built from the list name, a None description and the fixed Tasks
template identifier, whatever the resolved template and the description
argument were. -/
def create_list_body (list_name : String) (description : String)
    (template_name : String) : Except PyExc ListCreationInformation :=
  match ListTemplateType.get template_name with
  | none => Except.error (PyExc.listTemplateNotFound template_name)
  | some _ => Except.ok
      { title := list_name, description := none,
        base_template := ListTemplateType.Tasks }

/-- The public create_list, which src/sharepoint.py decorates with
handle_sharepoint_error. -/
def create_list (list_name : String) (description : String)
    (template_name : String) : Except PyExc ListCreationInformation :=
  handle_sharepoint_error (create_list_body list_name description template_name)

/-- Witness for the amended error-mapper theorem at concrete inputs: a vendor
exception with the cataloged file-not-found code and name becomes the typed
file-not-found error, and an uncataloged two-part code passes through
unchanged. -/
theorem error_mapper_catalog_witness :
    handle_sharepoint_error
        (Except.error (PyExc.clientRequest
          ⟨"-2130575338, Microsoft.SharePoint.SPException", "m", "d"⟩)
          : Except PyExc Unit) =
      Except.error (PyExc.spFileNotFound
        ⟨"-2130575338", "Microsoft.SharePoint.SPException", "m", "d"⟩) ∧
    handle_sharepoint_error
        (Except.error (PyExc.clientRequest ⟨"0, Foo.Bar", "m", "d"⟩)
          : Except PyExc Unit) =
      Except.error (PyExc.clientRequest ⟨"0, Foo.Bar", "m", "d"⟩) :=
  ⟨(@error_mapper_catalog Unit).2.1
      ⟨"-2130575338, Microsoft.SharePoint.SPException", "m", "d"⟩ (by decide),
   (@error_mapper_catalog Unit).2.2.2.2.2.2.2.1
      ⟨"0, Foo.Bar", "m", "d"⟩ "0" "Foo.Bar" (by decide) (by decide) (by decide)
      (by decide) (by decide)⟩

/-- C6. A call of download_folder whose output artifact name does not end in
".zip" produces the unsupported-format error with an empty effect trace, so
before any staging directory creation and before any network fetch; an output
name ending in ".zip" passes the format check, and the run proceeds to its
first effect, creating the base directory. -/
theorem download_folder_format_check (out url : String) (recursive : Bool)
    (fetch : Except PyExc RFolder) (download : String → Except PyExc Unit) :
    (pyEndsWith out ".zip" = false →
      download_folder url out recursive fetch download =
        ([], Except.error (PyExc.formatNotSupported
          "Only .zip files are supported for downloading folders."))) ∧
    (pyEndsWith out ".zip" = true →
      ∃ evs res, download_folder url out recursive fetch download =
        (Event.mkdirs (pyReplaceZip out) :: evs, res)) := by
  constructor
  · intro h
    simp [download_folder, h]
  · intro h
    simp only [download_folder, h, Bool.true_eq_false, if_false]
    split
    · exact ⟨_, _, rfl⟩
    · split
      · exact ⟨_, _, rfl⟩
      · exact ⟨_, _, rfl⟩

/-- Witness for the format check at concrete inputs: a ".txt" output name is
rejected with no effect at all, and a ".zip" output name proceeds to create
the base directory. -/
theorem download_folder_format_check_witness :
    download_folder "/f" "out.txt" false (Except.error (PyExc.other "e"))
        (fun _ => Except.ok ()) =
      ([], Except.error (PyExc.formatNotSupported
        "Only .zip files are supported for downloading folders.")) ∧
    (∃ evs res, download_folder "/f" "out.zip" false
        (Except.error (PyExc.other "e")) (fun _ => Except.ok ()) =
      (Event.mkdirs (pyReplaceZip "out.zip") :: evs, res)) :=
  ⟨(download_folder_format_check "out.txt" "/f" false
      (Except.error (PyExc.other "e")) (fun _ => Except.ok ())).1 (by decide),
   (download_folder_format_check "out.zip" "/f" false
      (Except.error (PyExc.other "e")) (fun _ => Except.ok ())).2 (by decide)⟩

/-- C9, counterexample. The claim states the staging directory is removed on
every exit path before an exception propagates. In a concrete run whose
remote fetch fails, the staging directory out/temp has been created, the
error propagates to the caller, and no removal of out/temp appears anywhere
in the effect trace: the source wraps nothing in try/finally. -/
theorem staging_dir_leaked_on_failure :
    (download_folder "/f" "out.zip" false
        (Except.error (PyExc.other "remote fetch failed"))
        (fun _ => Except.ok ())).2 =
      Except.error (PyExc.other "remote fetch failed") ∧
    Event.mkdirs "out/temp" ∈
      (download_folder "/f" "out.zip" false
        (Except.error (PyExc.other "remote fetch failed"))
        (fun _ => Except.ok ())).1 ∧
    Event.rmtree "out/temp" ∉
      (download_folder "/f" "out.zip" false
        (Except.error (PyExc.other "remote fetch failed"))
        (fun _ => Except.ok ())).1 := by
  refine ⟨by decide, by decide, by decide⟩

theorem downloadLoop_no_rmtree (temp : String) (dl : String → Except PyExc Unit)
    (nodes : List ChildNode) (x : String) :
    Event.rmtree x ∉ (downloadLoop temp dl nodes).1 := by
  induction nodes with
  | nil => simp [downloadLoop]
  | cons node rest ih =>
      by_cases hf : node.is_file = true
      · cases hdl : dl node.path with
        | error e => simp [downloadLoop, hf, hdl]
        | ok u => simp [downloadLoop, hf, hdl, ih]
      · simp [downloadLoop, hf, ih]

/-- C9, as amended. For every download_folder run that passes the format
check: when the run ends in an error (a remote-fetch failure or a download
failure raised mid-operation), the temporary staging directory it created is
NOT removed before the exception propagates, since the source has no
try/finally; on success the staging directory is archived into the target
artifact and then removed, as the final two effects of the run. -/
theorem staging_dir_lifecycle (out url : String) (recursive : Bool)
    (fetch : Except PyExc RFolder) (download : String → Except PyExc Unit)
    (h : pyEndsWith out ".zip" = true) :
    (∀ e, (download_folder url out recursive fetch download).2 = Except.error e →
      Event.rmtree (pyPathJoin (pyBasename (pyReplaceZip out)) "temp")
        ∉ (download_folder url out recursive fetch download).1) ∧
    ((download_folder url out recursive fetch download).2 = Except.ok () →
      ∃ evs, (download_folder url out recursive fetch download).1 =
        evs ++ [Event.makeArchive (pyReplaceZip out),
          Event.rmtree (pyPathJoin (pyBasename (pyReplaceZip out)) "temp")]) := by
  constructor
  · intro e he
    simp only [download_folder, h, Bool.true_eq_false, if_false] at he ⊢
    split at he
    · simp
    · split at he
      · simp [downloadLoop_no_rmtree]
      · simp at he
  · intro hok
    simp only [download_folder, h, Bool.true_eq_false, if_false] at hok ⊢
    split at hok
    · simp at hok
    · split at hok
      · simp at hok
      · exact ⟨_, rfl⟩

theorem downloadLoop_all_ok (temp : String) (dl : String → Except PyExc Unit)
    (nodes : List ChildNode) (hd : ∀ p, dl p = Except.ok ()) :
    (downloadLoop temp dl nodes).2 = Except.ok () := by
  induction nodes with
  | nil => simp [downloadLoop]
  | cons node rest ih =>
      by_cases hf : node.is_file = true
      · simp [downloadLoop, hf, hd node.path, ih]
      · simp [downloadLoop, hf, ih]

theorem download_folder_all_ok (out url : String) (recursive : Bool)
    (f : RFolder) (dl : String → Except PyExc Unit)
    (h : pyEndsWith out ".zip" = true) (hd : ∀ p, dl p = Except.ok ()) :
    (download_folder url out recursive (Except.ok f) dl).2 = Except.ok () := by
  simp only [download_folder, h, Bool.true_eq_false, if_false]
  rw [downloadLoop_all_ok _ _ _ hd]

/-- Witness for the staging lifecycle at a concrete successful run: the trace
ends by archiving the staging directory and removing it. -/
theorem staging_dir_lifecycle_witness :
    pyEndsWith "out.zip" ".zip" = true ∧
    (∃ evs, (download_folder "/f" "out.zip" false (Except.ok sampleRoot)
        (fun _ => Except.ok ())).1 =
      evs ++ [Event.makeArchive (pyReplaceZip "out.zip"),
        Event.rmtree (pyPathJoin (pyBasename (pyReplaceZip "out.zip")) "temp")]) :=
  ⟨by decide,
   (staging_dir_lifecycle "out.zip" "/f" false (Except.ok sampleRoot)
      (fun _ => Except.ok ()) (by decide)).2
     (download_folder_all_ok "out.zip" "/f" false sampleRoot
       (fun _ => Except.ok ()) (by decide) (fun _ => rfl))⟩

/-- C7. Calling upload_file with a chunk size over 262,144,000 bytes (250
MiB) produces the size-policy error with an empty remote-effect trace: no
folder resolution and no upload request of either kind happens. -/
theorem upload_file_chunk_size_policy (url : String) (total c : Nat)
    (h : c > 262144000) :
    upload_file url total (some c) =
      ([], Except.error (PyExc.valueError (VBody.plain
        "Chunk size should be less than 262,144,000 bytes (250 MB)."))) := by
  have hm : c > 250 * 1024 * 1024 := by omega
  simp [upload_file, upload_file_body, hm, handle_sharepoint_error,
    handle_value_error]

/-- Witness for the chunk-size policy at a concrete input one byte over the
threshold. -/
theorem upload_file_chunk_size_policy_witness :
    262144001 > 262144000 ∧
    upload_file "/Shared Documents" 5 (some 262144001) =
      ([], Except.error (PyExc.valueError (VBody.plain
        "Chunk size should be less than 262,144,000 bytes (250 MB)."))) :=
  ⟨by norm_num,
   upload_file_chunk_size_policy "/Shared Documents" 5 262144001 (by norm_num)⟩

/-- C8. The upload dispatch lies on the exact chunk-size boundary: a file
whose size equals the chunk size resolves the folder and uploads in a single
request; a file one byte larger resolves the folder and goes through the
chunked upload session. -/
theorem upload_file_boundary (url : String) (c : Nat) (h : c ≤ 262144000) :
    upload_file url c (some c) =
      ([UploadEvent.resolveFolder url, UploadEvent.singleRequestUpload],
        Except.ok ()) ∧
    upload_file url (c + 1) (some c) =
      ([UploadEvent.resolveFolder url, UploadEvent.chunkedSessionUpload],
        Except.ok ()) := by
  have h1 : ¬ c > 250 * 1024 * 1024 := by omega
  have h2 : ¬ c + 1 ≤ c := by omega
  constructor
  · simp [upload_file, upload_file_body, handle_sharepoint_error, h1]
  · simp [upload_file, upload_file_body, handle_sharepoint_error, h1, h2]

/-- Witness for the boundary dispatch at the default 10 MiB chunk size. -/
theorem upload_file_boundary_witness :
    10485760 ≤ 262144000 ∧
    (upload_file "/Shared Documents" 10485760 (some 10485760) =
      ([UploadEvent.resolveFolder "/Shared Documents",
        UploadEvent.singleRequestUpload], Except.ok ()) ∧
    upload_file "/Shared Documents" (10485760 + 1) (some 10485760) =
      ([UploadEvent.resolveFolder "/Shared Documents",
        UploadEvent.chunkedSessionUpload], Except.ok ())) :=
  ⟨by norm_num,
   upload_file_boundary "/Shared Documents" 10485760 (by norm_num)⟩

/-- C10. For recognized template names, create_list ignores both the
resolved template identifier and the description argument: the creation
request always carries the list name, a None description and the fixed Tasks
template identifier, so two calls differing only in recognized template name
or in description issue identical requests; the template name only decides
the recognized/unrecognized check, whose failure is the typed
template-not-found error. -/
theorem create_list_fixed_template (n d1 d2 t1 t2 : String)
    (h1 : (ListTemplateType.get t1).isSome = true)
    (h2 : (ListTemplateType.get t2).isSome = true) :
    create_list n d1 t1 = create_list n d2 t2 ∧
    create_list n d1 t1 = Except.ok
      { title := n, description := none,
        base_template := ListTemplateType.Tasks } ∧
    (∀ t, ListTemplateType.get t = none →
      create_list n d1 t = Except.error (PyExc.listTemplateNotFound t)) := by
  cases hg1 : ListTemplateType.get t1 with
  | none => rw [hg1] at h1; simp at h1
  | some v1 =>
      cases hg2 : ListTemplateType.get t2 with
      | none => rw [hg2] at h2; simp at h2
      | some v2 =>
          refine ⟨?_, ?_, ?_⟩
          · simp [create_list, create_list_body, hg1, hg2,
              handle_sharepoint_error]
          · simp [create_list, create_list_body, hg1, handle_sharepoint_error]
          · intro t ht
            simp [create_list, create_list_body, ht, handle_sharepoint_error]

/-- Witness for the fixed-template behavior at two distinct recognized
template names and two distinct descriptions. -/
theorem create_list_fixed_template_witness :
    (ListTemplateType.get "Tasks").isSome = true ∧
    (ListTemplateType.get "Events").isSome = true ∧
    create_list "MyList" "a desc" "Tasks" = create_list "MyList" "other" "Events" :=
  ⟨by decide, by decide,
   (create_list_fixed_template "MyList" "a desc" "other" "Tasks" "Events"
      (by decide) (by decide)).1⟩

end SP
